import Mathlib

/-!
Shallow embedding of `src/led.c` (and its header `led.h`): an ESP-IDF LEDC
based LED driver.  The hardware driver (`ledc_*` functions) is modelled as an
environment `DriverEnv` mapping each driver call to the error code it returns;
every modelled operation records the exact sequence of driver calls it issued.
Machine integers are modelled as `Nat`/`Int`; `gpio_num_t` is an `Int` because
the C code compares it with `GPIO_NUM_0` using a signed comparison.
-/

/-- ESP-IDF error codes that appear in `led.c`:
`ESP_OK`, `ESP_FAIL`, `ESP_ERR_INVALID_ARG`, `ESP_ERR_NO_MEM`,
`ESP_ERR_INVALID_STATE`. -/
inductive EspErr where
  | ok
  | fail
  | invalidArg
  | noMem
  | invalidState
  deriving DecidableEq, Repr

/-- `ledc_intr_type_t`: the two values used by `led.c`
(`LEDC_INTR_DISABLE`, `LEDC_INTR_FADE_END`). -/
inductive LedcIntrType where
  | disable
  | fadeEnd
  deriving DecidableEq, Repr

/-- The fields of `ledc_channel_config_t` that `led.c` reads or writes.
`gpio_num` is signed (`gpio_num_t` is an `int` enum in ESP-IDF). -/
structure LedcChannelConfig where
  channel : Nat
  output_invert : Nat
  hpoint : Nat
  duty : Nat
  gpio_num : Int
  intr_type : LedcIntrType
  speed_mode : Nat
  timer_sel : Nat
  deriving DecidableEq, Repr

/-- `led_mode_e` is a C enum; the field `led_t::mode` can hold any integer
value (e.g. an uninitialized one before `led_init` runs), so modes are `Nat`.
`FADE_MODE` is the first enumerator. -/
def FADE_MODE : Nat := 0

/-- `CONTINUOUS_MODE`, the second enumerator of `led_mode_e`. -/
def CONTINUOUS_MODE : Nat := 1

/-- `#define LED_MAX_NUM (8)` -/
def LED_MAX_NUM : Nat := 8

/-- `#define LED_TIMER_FREQ (5000)` -/
def LED_TIMER_FREQ : Nat := 5000

/-- `#define LED_TIMER LEDC_TIMER_1` (numeric value of `LEDC_TIMER_1`). -/
def LED_TIMER : Nat := 1

/-- `#define LED_SPEED_MODE LEDC_LOW_SPEED_MODE` (numeric value). -/
def LED_SPEED_MODE : Nat := 0

/-- `LEDC_TIMER_13_BIT` duty resolution selector. -/
def LEDC_TIMER_13_BIT : Nat := 13

/-- `GPIO_NUM_0` -/
def GPIO_NUM_0 : Int := 0

/-- `GPIO_NUM_MAX` on the ESP32 target (the exact bound is target dependent;
no claim depends on its particular value, only on the range check). -/
def GPIO_NUM_MAX : Int := 40

/-- `led_t`: the per-LED instance record from `led.h`.  The C struct holds a
pointer `ledc_channel_config_t *ledc_config`; the pointee is inlined here
(value semantics), which is faithful because the block is owned exclusively
by the instance. -/
structure led_t where
  ledc_config : LedcChannelConfig
  mode : Nat
  time : Nat
  state : Bool
  deriving DecidableEq, Repr

/-- The two file-scope globals of `led.c`:
`static bool is_installed` and `static uint8_t leds_num`. -/
structure LedGlobals where
  is_installed : Bool
  leds_num : Nat
  deriving DecidableEq, Repr

/-- The globals at program start: `is_installed = false`, `leds_num = 0`. -/
def initGlobals : LedGlobals := ⟨false, 0⟩

/-- One call into the LEDC hardware driver, with the arguments `led.c`
passes to it. -/
inductive DriverCall where
  | timerConfig (dutyResolution freqHz speedMode timerNum : Nat)
  | channelConfig (cfg : LedcChannelConfig)
  | stop (speedMode channel idleLevel : Nat)
  | fadeFuncInstall (intrFlags : Nat)
  | cbRegister (speedMode channel : Nat)
  | setFadeWithTime (speedMode channel targetDuty maxFadeTimeMs : Nat)
  | fadeStart (speedMode channel waitMode : Nat)
  | setDuty (speedMode channel duty : Nat)
  | updateDuty (speedMode channel : Nat)
  deriving DecidableEq, Repr

/-- The driver's behaviour: the error code each driver call returns. -/
def DriverEnv : Type := DriverCall → EspErr

/-- A driver in which every call succeeds. -/
def okEnv : DriverEnv := fun _ => EspErr.ok

/-- Result of `led_start` / `led_stop`: returned error code, the (possibly
updated) instance, and the driver calls issued, in order. -/
structure CallResult where
  ret : EspErr
  me : led_t
  calls : List DriverCall
  deriving DecidableEq, Repr

/-- Result of `led_init` / `led_set`: additionally the updated globals and
whether `ESP_ERROR_CHECK` aborted the program. -/
structure FullResult where
  ret : EspErr
  me : led_t
  g : LedGlobals
  calls : List DriverCall
  panicked : Bool
  deriving DecidableEq, Repr

/-- Lines 118–170 of `led_init` in `led.c`: timer configuration (guarded
by `!leds_num`), channel configuration, the initial `ledc_stop` (result
ignored), lazy fade-service installation (tolerating
`ESP_ERR_INVALID_STATE`), callback registration wrapped in
`ESP_ERROR_CHECK`, and the `leds_num` increment.  `me2` is the instance
with every field already written by the validation half of `led_init`. -/
def led_init_hw (env : DriverEnv) (me2 : led_t) (g : LedGlobals) : FullResult :=
  let cfg2 := me2.ledc_config
  let pre : List DriverCall :=
    (if g.leds_num = 0 then
        [DriverCall.timerConfig LEDC_TIMER_13_BIT LED_TIMER_FREQ LED_SPEED_MODE LED_TIMER]
      else []) ++ [DriverCall.channelConfig cfg2]
  let retCC := env (DriverCall.channelConfig cfg2)
  if retCC ≠ EspErr.ok then ⟨retCC, me2, g, pre, false⟩
  else
  let pre2 := pre ++ [DriverCall.stop cfg2.speed_mode cfg2.channel 0]
  if cfg2.intr_type = LedcIntrType.fadeEnd ∧ g.is_installed = false then
    let rI := env (DriverCall.fadeFuncInstall 0)
    let pre3 := pre2 ++ [DriverCall.fadeFuncInstall 0]
    if rI ≠ EspErr.ok ∧ rI ≠ EspErr.invalidState then ⟨rI, me2, g, pre3, false⟩
    else
      let g2 := { g with is_installed := true }
      let pre4 := pre3 ++ [DriverCall.cbRegister cfg2.speed_mode cfg2.channel]
      if env (DriverCall.cbRegister cfg2.speed_mode cfg2.channel) ≠ EspErr.ok then
        ⟨rI, me2, g2, pre4, true⟩
      else ⟨rI, me2, { g2 with leds_num := g2.leds_num + 1 }, pre4, false⟩
  else if cfg2.intr_type = LedcIntrType.fadeEnd ∧ g.is_installed = true then
    let pre4 := pre2 ++ [DriverCall.cbRegister cfg2.speed_mode cfg2.channel]
    if env (DriverCall.cbRegister cfg2.speed_mode cfg2.channel) ≠ EspErr.ok then
      ⟨retCC, me2, g, pre4, true⟩
    else ⟨retCC, me2, { g with leds_num := g.leds_num + 1 }, pre4, false⟩
  else ⟨retCC, me2, { g with leds_num := g.leds_num + 1 }, pre2, false⟩

/-- `led_init(me, gpio, mode, time, intensity)` from `led.c`: the
validation half (lines 62–116), followed by `led_init_hw`.
`mallocOk` models whether the `malloc` of the channel-config block succeeds,
and `fresh` models the (uninitialized) contents of that block.  Note two
quirks of the source that the embedding reproduces:
the intensity and gpio checks run *after* some fields of the freshly
allocated block have been written, and the `intr_type` choice tests
`me->mode` — the value the field held *before* this call — not the `mode`
argument (which is stored only afterwards). -/
def led_init (env : DriverEnv) (mallocOk : Bool) (fresh : LedcChannelConfig)
    (me : led_t) (g : LedGlobals) (gpio : Int) (mode : Nat) (time : Nat)
    (intensity : Nat) : FullResult :=
  if LED_MAX_NUM ≤ g.leds_num then ⟨EspErr.fail, me, g, [], false⟩
  else if mallocOk = false then ⟨EspErr.noMem, me, g, [], false⟩
  else
  let cfg0 := { fresh with channel := g.leds_num, output_invert := 0, hpoint := 0 }
  if 100 < intensity then ⟨EspErr.invalidArg, { me with ledc_config := cfg0 }, g, [], false⟩
  else
  let cfg1 := { cfg0 with duty := intensity * 80 }
  if gpio < GPIO_NUM_0 ∨ GPIO_NUM_MAX ≤ gpio then
    ⟨EspErr.invalidArg, { me with ledc_config := cfg1 }, g, [], false⟩
  else
  let cfg2 := { cfg1 with
    gpio_num := gpio,
    intr_type := if me.mode = CONTINUOUS_MODE then LedcIntrType.disable else LedcIntrType.fadeEnd,
    speed_mode := LED_SPEED_MODE,
    timer_sel := LED_TIMER }
  led_init_hw env { ledc_config := cfg2, mode := mode, time := time, state := false } g

/-- `led_start(me)` from `led.c`: a switch on `me->mode`. -/
def led_start (env : DriverEnv) (me : led_t) : CallResult :=
  if me.mode = FADE_MODE then
    let c1 := DriverCall.setFadeWithTime me.ledc_config.speed_mode
      me.ledc_config.channel me.ledc_config.duty me.time
    if env c1 ≠ EspErr.ok then ⟨env c1, me, [c1]⟩
    else
      let c2 := DriverCall.fadeStart me.ledc_config.speed_mode me.ledc_config.channel 0
      ⟨env c2, me, [c1, c2]⟩
  else if me.mode = CONTINUOUS_MODE then
    let c1 := DriverCall.setDuty me.ledc_config.speed_mode
      me.ledc_config.channel me.ledc_config.duty
    if env c1 ≠ EspErr.ok then ⟨env c1, me, [c1]⟩
    else
      let c2 := DriverCall.updateDuty me.ledc_config.speed_mode me.ledc_config.channel
      ⟨env c2, me, [c1, c2]⟩
  else ⟨EspErr.invalidArg, me, []⟩

/-- `led_stop(me)` from `led.c`: set duty 0, apply it, stop the channel. -/
def led_stop (env : DriverEnv) (me : led_t) : CallResult :=
  let c1 := DriverCall.setDuty me.ledc_config.speed_mode me.ledc_config.channel 0
  if env c1 ≠ EspErr.ok then ⟨env c1, me, [c1]⟩
  else
  let c2 := DriverCall.updateDuty me.ledc_config.speed_mode me.ledc_config.channel
  if env c2 ≠ EspErr.ok then ⟨env c2, me, [c1, c2]⟩
  else
  let c3 := DriverCall.stop me.ledc_config.speed_mode me.ledc_config.channel 0
  ⟨env c3, me, [c1, c2, c3]⟩

/-- Lines 312–362 of `led_set` in `led.c`: the `ledc_stop` (turn the LED
off), lazy fade-service installation (here a plain `ret != ESP_OK` test,
*not* tolerating the already-installed status code), callback
registration, and the
final `led_start`.  After the callback registration the C code re-tests
the *stale* variable `ret` (the result of `ledc_cb_register` is
discarded); that stale value is `ESP_OK` on every path that reaches the
test, so the test never fires and control proceeds to `led_start`. -/
def led_set_hw (env : DriverEnv) (me2 : led_t) (g : LedGlobals) : FullResult :=
  let cfgC := me2.ledc_config
  let c1 := DriverCall.stop cfgC.speed_mode cfgC.channel 0
  if env c1 ≠ EspErr.ok then ⟨env c1, me2, g, [c1], false⟩
  else
  if cfgC.intr_type = LedcIntrType.fadeEnd ∧ g.is_installed = false then
    let rI := env (DriverCall.fadeFuncInstall 0)
    if rI ≠ EspErr.ok then ⟨rI, me2, g, [c1, DriverCall.fadeFuncInstall 0], false⟩
    else
      let g2 := { g with is_installed := true }
      let s := led_start env me2
      ⟨s.ret, s.me, g2,
        [c1, DriverCall.fadeFuncInstall 0,
          DriverCall.cbRegister cfgC.speed_mode cfgC.channel] ++ s.calls, false⟩
  else if cfgC.intr_type = LedcIntrType.fadeEnd ∧ g.is_installed = true then
    let s := led_start env me2
    ⟨s.ret, s.me, g,
      [c1, DriverCall.cbRegister cfgC.speed_mode cfgC.channel] ++ s.calls, false⟩
  else
    let s := led_start env me2
    ⟨s.ret, s.me, g, [c1] ++ s.calls, false⟩

/-- `led_set(me, gpio, mode, time, intensity)` from `led.c`: the
validation-and-overwrite half (lines 278–310), followed by `led_set_hw`. -/
def led_set (env : DriverEnv) (me : led_t) (g : LedGlobals) (gpio : Int)
    (mode : Nat) (time : Nat) (intensity : Nat) : FullResult :=
  if gpio < GPIO_NUM_0 ∨ GPIO_NUM_MAX ≤ gpio then ⟨EspErr.invalidArg, me, g, [], false⟩
  else
  let cfgA := { me.ledc_config with gpio_num := gpio }
  if 100 < intensity then ⟨EspErr.invalidArg, { me with ledc_config := cfgA }, g, [], false⟩
  else
  let cfgB := { cfgA with duty := intensity * 80 }
  if mode ≠ FADE_MODE ∧ mode ≠ CONTINUOUS_MODE then
    ⟨EspErr.invalidArg, { me with ledc_config := cfgB }, g, [], false⟩
  else
  let cfgC := { cfgB with
    intr_type := if mode = CONTINUOUS_MODE then LedcIntrType.disable else LedcIntrType.fadeEnd }
  led_set_hw env { me with ledc_config := cfgC, mode := mode, time := time } g

/-- `fade_end_cb(param, arg)` from `led.c`: the fade-completion handler.
It re-arms a fade toward `state ? 0 : duty` over `time`, then flips `state`.
Both driver results are discarded by the C code, and `task_awoken` stays
`pdFALSE`, so the handler returns `false`. -/
def fade_end_cb (led : led_t) : led_t × List DriverCall × Bool :=
  ({ led with state := !led.state },
    [DriverCall.setFadeWithTime led.ledc_config.speed_mode led.ledc_config.channel
        (if led.state then 0 else led.ledc_config.duty) led.time,
      DriverCall.fadeStart led.ledc_config.speed_mode led.ledc_config.channel 0],
    false)

/-- `n` successive fade-completion notifications delivered to `led`,
returning the final instance and the concatenated driver-call trace. -/
def fade_notifications : Nat → led_t → led_t × List DriverCall
  | 0, led => (led, [])
  | n + 1, led =>
    let r := fade_end_cb led
    let rest := fade_notifications n r.1
    (rest.1, r.2.1 ++ rest.2)

/-- The ramp targets, in order, of the `setFadeWithTime` calls in a trace. -/
def rampTargets : List DriverCall → List Nat
  | [] => []
  | DriverCall.setFadeWithTime _ _ d _ :: cs => d :: rampTargets cs
  | _ :: cs => rampTargets cs

/-- `altTargets D s n`: the `n` ramp targets produced by the handler's
toggling rule starting from toggle state `s` — `0` when the state is set,
`D` when it is clear, flipping after every notification. -/
def altTargets (D : Nat) : Bool → Nat → List Nat
  | _, 0 => []
  | s, n + 1 => (if s then 0 else D) :: altTargets D (!s) n

/-- Modelled from the spec: `duty = floor(intensity * MaxDuty / 100)` with
`MaxDuty = 8191` (13-bit resolution), the formula the claim states. -/
def specDuty (intensity : Nat) : Nat := intensity * 8191 / 100

/-- Modelled from the spec: the ramp-target sequence the claim states for a
fade with computed duty `D` and `n` completion notifications — `D` from the
start call, then the first re-arm targeting `0` and each subsequent one
toggling between `D` and `0`. -/
def claimedTargets (D : Nat) (n : Nat) : List Nat := D :: altTargets D true n

/-- Is a driver call the shared-timer configuration call? -/
def isTimerConfig : DriverCall → Bool
  | DriverCall.timerConfig _ _ _ _ => true
  | _ => false

/-- Is a driver call the fade-service installation call? -/
def isInstallCall : DriverCall → Bool
  | DriverCall.fadeFuncInstall _ => true
  | _ => false

/-- Is a driver call a `ledc_fade_start` call? -/
def isFadeStart : DriverCall → Bool
  | DriverCall.fadeStart _ _ _ => true
  | _ => false

/-- One registration request: the caller-owned (uninitialized) instance
struct, the malloc outcome, the fresh block contents, and the arguments of
`led_init`. -/
structure RegCall where
  me : led_t
  mallocOk : Bool
  fresh : LedcChannelConfig
  gpio : Int
  mode : Nat
  time : Nat
  intensity : Nat
  deriving DecidableEq, Repr

/-- A registration whose arguments pass all of `led_init`'s validation
checks: allocation succeeds, the pin is in range and the intensity is at
most 100. -/
def validCall (c : RegCall) : Bool :=
  c.mallocOk && decide (GPIO_NUM_0 ≤ c.gpio) && decide (c.gpio < GPIO_NUM_MAX)
    && decide (c.intensity ≤ 100)

/-- Run a sequence of `led_init` registrations, threading the globals, and
return every call's result together with the final globals. -/
def run_registrations (env : DriverEnv) : List RegCall → LedGlobals → List FullResult × LedGlobals
  | [], g => ([], g)
  | c :: cs, g =>
    let r := led_init env c.mallocOk c.fresh c.me g c.gpio c.mode c.time c.intensity
    let rest := run_registrations env cs r.g
    (r :: rest.1, rest.2)

/-- Total number of shared-timer configuration calls issued across a list of
registration results. -/
def timerCalls (rs : List FullResult) : Nat :=
  (rs.map (fun r => r.calls.countP (fun c => isTimerConfig c))).sum

/-- An all-zero channel-config block, used as concrete malloc contents and
as the config of concrete sample instances. -/
def zeroCfg : LedcChannelConfig := ⟨0, 0, 0, 0, 0, LedcIntrType.disable, 0, 0⟩

/-- A caller-owned instance struct whose (uninitialized) `mode` field
happens to hold `FADE_MODE`. -/
def blankLed : led_t := ⟨zeroCfg, FADE_MODE, 0, false⟩

/-- A caller-owned instance struct whose (uninitialized) `mode` field
happens to hold `CONTINUOUS_MODE`. -/
def contLed : led_t := ⟨zeroCfg, CONTINUOUS_MODE, 0, false⟩

/-- The instance produced by the first registration on a fresh system:
`led_init(gpio = 4, FADE_MODE, time = 500, intensity = 25)` with every
driver call succeeding. -/
def regFade : FullResult := led_init okEnv true zeroCfg blankLed initGlobals 4 FADE_MODE 500 25

/-- The registered fade instance itself: channel 0, duty `25 * 80 = 2000`,
period 500 ms, toggle state clear. -/
def fadeLed : led_t := regFade.me

/-- A sample already-initialized instance on pin 5 in continuous mode,
used to exhibit field mutation on rejected `led_set` calls. -/
def sampleMe : led_t :=
  ⟨{ zeroCfg with gpio_num := 5, duty := 800, speed_mode := LED_SPEED_MODE }, CONTINUOUS_MODE, 0, false⟩

/-- A driver in which `ledc_channel_config` fails and every other call
succeeds. -/
def chanFailEnv : DriverEnv := fun c =>
  match c with
  | DriverCall.channelConfig _ => EspErr.fail
  | _ => EspErr.ok

/-- A driver in which `ledc_fade_func_install` reports
`ESP_ERR_INVALID_STATE` ("already installed") and every other call
succeeds. -/
def alreadyEnv : DriverEnv := fun c =>
  match c with
  | DriverCall.fadeFuncInstall _ => EspErr.invalidState
  | _ => EspErr.ok

/-- A valid registration request: pin 4, `FADE_MODE`, 500 ms, intensity 25. -/
def regCallA : RegCall := ⟨blankLed, true, zeroCfg, 4, FADE_MODE, 500, 25⟩

/-- An instance whose `mode` field holds neither `FADE_MODE` nor
`CONTINUOUS_MODE` (the C enum field can hold such a value, e.g. before
initialization). -/
def otherModeLed : led_t := ⟨zeroCfg, 5, 0, false⟩

/-- `led_start` never writes through `me`: the returned instance is the
argument. -/
theorem led_start_me_eq (env : DriverEnv) (me : led_t) : (led_start env me).me = me := by
  simp only [led_start]
  split_ifs <;> rfl

/-- `led_stop` never writes through `me`: the returned instance is the
argument. -/
theorem led_stop_me_eq (env : DriverEnv) (me : led_t) : (led_stop env me).me = me := by
  simp only [led_stop]
  split_ifs <;> rfl

/-- The hardware half of `led_init` returns the instance it was given:
every field write of `led_init` happens in the validation half. -/
theorem led_init_hw_me (env : DriverEnv) (me2 : led_t) (g : LedGlobals) :
    (led_init_hw env me2 g).me = me2 := by
  simp only [led_init_hw]
  split_ifs <;> rfl

/-- The hardware half of `led_set` returns the instance it was given
(through `led_start`, which does not write it either). -/
theorem led_set_hw_me (env : DriverEnv) (me2 : led_t) (g : LedGlobals) :
    (led_set_hw env me2 g).me = me2 := by
  simp only [led_set_hw]
  split_ifs <;> simp [led_start_me_eq]

/-- Claim C8: `led_stop` submits set-duty 0, then apply-duty, then a stop
call, all on the instance's own channel, and modifies no field of the
instance (stated for a driver whose calls all succeed, plus the
unconditional no-modification part for an arbitrary driver). -/
theorem led_C8 (env env' : DriverEnv) (me : led_t) (h : ∀ c, env c = EspErr.ok) :
    led_stop env me =
      ⟨EspErr.ok, me,
        [DriverCall.setDuty me.ledc_config.speed_mode me.ledc_config.channel 0,
          DriverCall.updateDuty me.ledc_config.speed_mode me.ledc_config.channel,
          DriverCall.stop me.ledc_config.speed_mode me.ledc_config.channel 0]⟩ ∧
    (led_stop env' me).me = me := by
  refine ⟨?_, led_stop_me_eq env' me⟩
  simp only [led_stop]
  simp [h]

/-- Claim C8, witness: the theorem applied to the all-ok driver and the
registered fade instance. -/
theorem led_C8_witness :
    led_stop okEnv fadeLed =
      ⟨EspErr.ok, fadeLed,
        [DriverCall.setDuty fadeLed.ledc_config.speed_mode fadeLed.ledc_config.channel 0,
          DriverCall.updateDuty fadeLed.ledc_config.speed_mode fadeLed.ledc_config.channel,
          DriverCall.stop fadeLed.ledc_config.speed_mode fadeLed.ledc_config.channel 0]⟩ ∧
    (led_stop okEnv fadeLed).me = fadeLed :=
  led_C8 okEnv okEnv fadeLed (fun _ => rfl)

/-- Claim C9: the toggle-state field is written only by the
fade-completion handler (which flips it); none of the foreground calls
`led_set`, `led_start`, `led_stop` changes it, for any driver behaviour
and any arguments. -/
theorem led_C9 (env : DriverEnv) (me : led_t) (g : LedGlobals) (gpio : Int)
    (mode : Nat) (time : Nat) (intensity : Nat) :
    (led_set env me g gpio mode time intensity).me.state = me.state ∧
    (led_start env me).me.state = me.state ∧
    (led_stop env me).me.state = me.state ∧
    (fade_end_cb me).1.state = !me.state := by
  refine ⟨?_, by rw [led_start_me_eq], by rw [led_stop_me_eq], rfl⟩
  simp only [led_set]
  split_ifs <;> simp [led_set_hw_me]

/-- Claim C10: if the instance's `mode` field holds a value other than
`FADE_MODE` or `CONTINUOUS_MODE`, `led_start` returns
`ESP_ERR_INVALID_ARG`, issues no driver call and leaves the instance
untouched. -/
theorem led_C10 (env : DriverEnv) (me : led_t)
    (h1 : me.mode ≠ FADE_MODE) (h2 : me.mode ≠ CONTINUOUS_MODE) :
    led_start env me = ⟨EspErr.invalidArg, me, []⟩ := by
  simp only [led_start]
  simp [h1, h2]

/-- Claim C10, witness: the theorem applied to an instance whose mode
field holds 5. -/
theorem led_C10_witness : led_start okEnv otherModeLed = ⟨EspErr.invalidArg, otherModeLed, []⟩ :=
  led_C10 okEnv otherModeLed (by decide) (by decide)

/-- Claim C3, code evidence: after `led_stop` completes (which changes no
field of the instance, in particular not its mode), a fade-completion
notification still re-arms the fade — `fade_end_cb` contains no mode
check at all, and even an instance in `CONTINUOUS_MODE` gets re-armed.
The claim's discard behaviour is absent from the code. -/
theorem led_C3_evidence :
    (led_stop okEnv fadeLed).me = fadeLed ∧
    fadeLed.mode = FADE_MODE ∧
    (fade_end_cb fadeLed).2.1 =
      [DriverCall.setFadeWithTime 0 0 2000 500, DriverCall.fadeStart 0 0 0] ∧
    sampleMe.mode = CONTINUOUS_MODE ∧
    (fade_end_cb sampleMe).2.1 ≠ [] := by
  refine ⟨led_stop_me_eq okEnv fadeLed, ?_, ?_, ?_, ?_⟩ <;> decide

/-- Claim C1, counterexample: at intensity 50 the code programs duty
`50 * 80 = 4000`, not `floor(50 * 8191 / 100) = 4095` as the claim states. -/
theorem led_C1_counterexample :
    (led_set okEnv sampleMe initGlobals 4 CONTINUOUS_MODE 0 50).me.ledc_config.duty = 4000 ∧
    (led_init okEnv true zeroCfg blankLed initGlobals 4 FADE_MODE 500 50).me.ledc_config.duty = 4000 ∧
    specDuty 50 = 4095 ∧
    (led_set okEnv sampleMe initGlobals 4 CONTINUOUS_MODE 0 50).me.ledc_config.duty ≠ specDuty 50 := by
  refine ⟨?_, ?_, ?_, ?_⟩ <;> decide

/-- Claim C1 (amended): for every intensity in [0,100] the duty programmed
into the channel configuration by `led_init` and `led_set` is
`intensity * 80` (scale factor 80, maximum 8000), which lies within the
13-bit range [0, 8191]. -/
theorem led_C1_amended (env : DriverEnv) (mallocOk : Bool) (fresh : LedcChannelConfig)
    (me : led_t) (g : LedGlobals) (gpio : Int) (mode : Nat) (time : Nat) (intensity : Nat)
    (hi : intensity ≤ 100) (hcap : g.leds_num < LED_MAX_NUM) (hm : mallocOk = true)
    (hg0 : GPIO_NUM_0 ≤ gpio) (hg1 : gpio < GPIO_NUM_MAX) :
    (led_init env mallocOk fresh me g gpio mode time intensity).me.ledc_config.duty = intensity * 80 ∧
    (led_set env me g gpio mode time intensity).me.ledc_config.duty = intensity * 80 ∧
    intensity * 80 ≤ 8191 := by
  subst hm
  refine ⟨?_, ?_, by omega⟩
  · simp only [led_init]
    split_ifs <;> first | rfl | omega | simp_all only [] | simp [led_init_hw_me]
  · simp only [led_set]
    split_ifs <;> first | rfl | omega | simp [led_set_hw_me]

/-- Claim C1, witness: the amended theorem at intensity 50 on pin 4. -/
theorem led_C1_witness :
    (led_init okEnv true zeroCfg sampleMe initGlobals 4 CONTINUOUS_MODE 0 50).me.ledc_config.duty = 50 * 80 ∧
    (led_set okEnv sampleMe initGlobals 4 CONTINUOUS_MODE 0 50).me.ledc_config.duty = 50 * 80 ∧
    50 * 80 ≤ 8191 :=
  led_C1_amended okEnv true zeroCfg sampleMe initGlobals 4 CONTINUOUS_MODE 0 50
    (by decide) (by decide) rfl (by decide) (by decide)

/-- Each fade-completion notification issues exactly one re-arm (one
`setFadeWithTime` and one `fadeStart`), with targets following the
toggling rule `state ? 0 : duty`, the state flipping after each
notification. -/
theorem fade_notifications_targets (n : Nat) : ∀ led : led_t,
    rampTargets (fade_notifications n led).2 = altTargets led.ledc_config.duty led.state n ∧
    (fade_notifications n led).2.countP (fun c => isFadeStart c) = n ∧
    (fade_notifications n led).2.length = 2 * n := by
  induction n with
  | zero => intro led; exact ⟨rfl, rfl, rfl⟩
  | succ n ih =>
    intro led
    obtain ⟨h1, h2, h3⟩ := ih { led with state := !led.state }
    refine ⟨?_, ?_, ?_⟩
    · simpa [fade_notifications, fade_end_cb, rampTargets, altTargets] using h1
    · simpa [fade_notifications, fade_end_cb, List.countP_cons, isFadeStart] using h2
    · simp [fade_notifications, fade_end_cb]
      omega

/-- Claim C2, counterexample: for the registered fade instance (computed
duty 2000, toggle state initially clear), the start call targets 2000 and
the *first* re-arm targets 2000 again — not 0 as the claim states; the
code's sequence after two notifications is `[2000, 2000, 0]` while the
claimed one is `[2000, 0, 2000]`. -/
theorem led_C2_counterexample :
    rampTargets ((led_start okEnv fadeLed).calls ++
        (fade_notifications 2 (led_start okEnv fadeLed).me).2) = [2000, 2000, 0] ∧
    claimedTargets fadeLed.ledc_config.duty 2 = [2000, 0, 2000] ∧
    rampTargets ((led_start okEnv fadeLed).calls ++
        (fade_notifications 2 (led_start okEnv fadeLed).me).2) ≠
      claimedTargets fadeLed.ledc_config.duty 2 := by
  refine ⟨?_, ?_, ?_⟩ <;> decide

/-- Claim C2 (amended): after a fade is started on an instance in
`FADE_MODE`, the ramp targets submitted to the driver are the configured
duty `D` by the start call, and then one re-arm per completion
notification whose target follows the toggle state *as it was before the
notification* — starting from a freshly initialized instance
(`state = false`) the first re-arm targets `D` again, and only subsequent
ones alternate `0, D, 0, …`; each notification issues exactly one re-arm
(one `fadeStart`, two driver calls). -/
theorem led_C2_amended (me : led_t) (n : Nat) (h : me.mode = FADE_MODE) :
    rampTargets ((led_start okEnv me).calls ++ (fade_notifications n (led_start okEnv me).me).2) =
      me.ledc_config.duty :: altTargets me.ledc_config.duty me.state n ∧
    (fade_notifications n (led_start okEnv me).me).2.countP (fun c => isFadeStart c) = n ∧
    (fade_notifications n (led_start okEnv me).me).2.length = 2 * n := by
  rw [led_start_me_eq]
  obtain ⟨h1, h2, h3⟩ := fade_notifications_targets n me
  refine ⟨?_, h2, h3⟩
  have hcalls : (led_start okEnv me).calls =
      [DriverCall.setFadeWithTime me.ledc_config.speed_mode me.ledc_config.channel
          me.ledc_config.duty me.time,
        DriverCall.fadeStart me.ledc_config.speed_mode me.ledc_config.channel 0] := by
    simp [led_start, h, okEnv]
  rw [hcalls]
  simp [rampTargets, h1]

/-- Claim C2, witness: the amended theorem on the registered fade
instance with two notifications. -/
theorem led_C2_witness :
    rampTargets ((led_start okEnv fadeLed).calls ++
        (fade_notifications 2 (led_start okEnv fadeLed).me).2) =
      fadeLed.ledc_config.duty :: altTargets fadeLed.ledc_config.duty fadeLed.state 2 ∧
    (fade_notifications 2 (led_start okEnv fadeLed).me).2.countP (fun c => isFadeStart c) = 2 ∧
    (fade_notifications 2 (led_start okEnv fadeLed).me).2.length = 2 * 2 :=
  led_C2_amended fadeLed 2 (by decide)

/-- Claim C4, counterexample: `led_set` with intensity 101 returns
`ESP_ERR_INVALID_ARG` with no driver call, but it has already overwritten
the channel configuration's pin field (5 before the call, 7 after), so
the instance state is *not* left unchanged. -/
theorem led_C4_counterexample :
    (led_set okEnv sampleMe initGlobals 7 FADE_MODE 100 101).ret = EspErr.invalidArg ∧
    (led_set okEnv sampleMe initGlobals 7 FADE_MODE 100 101).calls = [] ∧
    sampleMe.ledc_config.gpio_num = 5 ∧
    (led_set okEnv sampleMe initGlobals 7 FADE_MODE 100 101).me.ledc_config.gpio_num = 7 ∧
    (led_set okEnv sampleMe initGlobals 7 FADE_MODE 100 101).me ≠ sampleMe := by
  refine ⟨?_, ?_, ?_, ?_, ?_⟩ <;> decide

/-- Claim C4 (amended): `led_init` and `led_set` with intensity > 100 or
an out-of-range pin return `ESP_ERR_INVALID_ARG` synchronously, perform
no driver call, leave the globals alone and leave `mode`, `time` and the
toggle state unchanged — but channel-config fields written *before* the
failing check are modified: on an intensity failure `led_init` has
already replaced the config block by a fresh one with `channel`,
`output_invert` and `hpoint` set (plus `duty` on a pin failure), and
`led_set` has already overwritten `gpio_num` (only its pin check precedes
every write). -/
theorem led_C4_amended (env : DriverEnv) (mallocOk : Bool) (fresh : LedcChannelConfig)
    (me : led_t) (g : LedGlobals) (gpio : Int) (mode : Nat) (time : Nat) (intensity : Nat)
    (hcap : g.leds_num < LED_MAX_NUM) (hm : mallocOk = true) :
    (100 < intensity → GPIO_NUM_0 ≤ gpio → gpio < GPIO_NUM_MAX →
      led_set env me g gpio mode time intensity =
        ⟨EspErr.invalidArg, { me with ledc_config := { me.ledc_config with gpio_num := gpio } },
          g, [], false⟩) ∧
    (100 < intensity →
      led_init env mallocOk fresh me g gpio mode time intensity =
        ⟨EspErr.invalidArg,
          { me with ledc_config :=
            { fresh with
              channel := g.leds_num,
              output_invert := 0,
              hpoint := 0 } },
          g, [], false⟩) ∧
    (gpio < GPIO_NUM_0 ∨ GPIO_NUM_MAX ≤ gpio →
      led_set env me g gpio mode time intensity = ⟨EspErr.invalidArg, me, g, [], false⟩) ∧
    (gpio < GPIO_NUM_0 ∨ GPIO_NUM_MAX ≤ gpio → intensity ≤ 100 →
      led_init env mallocOk fresh me g gpio mode time intensity =
        ⟨EspErr.invalidArg,
          { me with ledc_config :=
            { fresh with
              channel := g.leds_num,
              output_invert := 0,
              hpoint := 0,
              duty := intensity * 80 } },
          g, [], false⟩) := by
  subst hm
  refine ⟨?_, ?_, ?_, ?_⟩
  · intro hi hg0 hg1
    simp only [led_set]
    split_ifs <;> first | rfl | omega
  · intro hi
    simp only [led_init]
    split_ifs <;> first | rfl | omega | exact (‹False›).elim
  · intro hbad
    simp only [led_set]
    split_ifs <;> first | rfl | omega
  · intro hbad hi
    simp only [led_init]
    split_ifs <;> first | rfl | omega | exact (‹False›).elim

/-- Claim C4, witness: the amended theorem on the pin-5 instance, for an
intensity failure (`led_set(7, …, 101)`) and a pin failure
(`led_set(77, …, 50)`). -/
theorem led_C4_witness :
    led_set okEnv sampleMe initGlobals 7 FADE_MODE 100 101 =
      ⟨EspErr.invalidArg,
        { sampleMe with ledc_config := { sampleMe.ledc_config with gpio_num := 7 } },
        initGlobals, [], false⟩ ∧
    led_set okEnv sampleMe initGlobals 77 FADE_MODE 100 50 =
      ⟨EspErr.invalidArg, sampleMe, initGlobals, [], false⟩ :=
  ⟨(led_C4_amended okEnv true zeroCfg sampleMe initGlobals 7 FADE_MODE 100 101
      (by decide) rfl).1 (by decide) (by decide) (by decide),
    (led_C4_amended okEnv true zeroCfg sampleMe initGlobals 77 FADE_MODE 100 50
      (by decide) rfl).2.2.1 (by decide)⟩

/-- On a valid argument set (allocation succeeds, pin in range, intensity
at most 100, capacity available), `led_init` reduces to its hardware half
applied to the fully written instance. -/
theorem led_init_valid_eq (env : DriverEnv) (mallocOk : Bool) (fresh : LedcChannelConfig)
    (me : led_t) (g : LedGlobals) (gpio : Int) (mode : Nat) (time : Nat) (intensity : Nat)
    (hm : mallocOk = true) (hg0 : GPIO_NUM_0 ≤ gpio) (hg1 : gpio < GPIO_NUM_MAX)
    (hi : intensity ≤ 100) (hcap : g.leds_num < LED_MAX_NUM) :
    led_init env mallocOk fresh me g gpio mode time intensity =
      led_init_hw env
        { ledc_config :=
            ⟨g.leds_num, 0, 0, intensity * 80, gpio,
              (if me.mode = CONTINUOUS_MODE then LedcIntrType.disable else LedcIntrType.fadeEnd),
              LED_SPEED_MODE, LED_TIMER⟩,
          mode := mode, time := time, state := false } g := by
  subst hm
  simp only [led_init]
  rw [if_neg (by omega), if_neg (by decide), if_neg (by omega), if_neg (by omega)]

/-- The hardware half of `led_init` under an all-ok driver: it returns
`ESP_OK`, does not abort, and increments `leds_num` by one. -/
theorem led_init_hw_ok (me2 : led_t) (g : LedGlobals) :
    (led_init_hw okEnv me2 g).ret = EspErr.ok ∧
    (led_init_hw okEnv me2 g).panicked = false ∧
    (led_init_hw okEnv me2 g).g.leds_num = g.leds_num + 1 := by
  simp only [led_init_hw, okEnv]
  split_ifs <;> simp_all

/-- The hardware half of `led_init` issues the shared-timer configuration
call exactly when `leds_num` is zero, for any driver behaviour. -/
theorem led_init_hw_timer (env : DriverEnv) (me2 : led_t) (g : LedGlobals) :
    (led_init_hw env me2 g).calls.countP (fun c => isTimerConfig c) =
      if g.leds_num = 0 then 1 else 0 := by
  simp only [led_init_hw]
  split_ifs <;>
    simp_all [List.countP_append, List.countP_cons, isTimerConfig]

/-- The hardware half of `led_init` never decreases `leds_num`. -/
theorem led_init_hw_mono (env : DriverEnv) (me2 : led_t) (g : LedGlobals) :
    g.leds_num ≤ (led_init_hw env me2 g).g.leds_num := by
  simp only [led_init_hw]
  split_ifs <;> simp

/-- A valid registration under the all-ok driver with capacity left:
returns `ESP_OK`, no abort, channel index = current `leds_num`, counter
incremented. -/
theorem led_init_ok_reg (c : RegCall) (g : LedGlobals)
    (hv : validCall c = true) (hcap : g.leds_num < LED_MAX_NUM) :
    (led_init okEnv c.mallocOk c.fresh c.me g c.gpio c.mode c.time c.intensity).ret = EspErr.ok ∧
    (led_init okEnv c.mallocOk c.fresh c.me g c.gpio c.mode c.time c.intensity).panicked = false ∧
    (led_init okEnv c.mallocOk c.fresh c.me g c.gpio c.mode c.time c.intensity).me.ledc_config.channel = g.leds_num ∧
    (led_init okEnv c.mallocOk c.fresh c.me g c.gpio c.mode c.time c.intensity).g.leds_num = g.leds_num + 1 := by
  simp only [validCall, Bool.and_eq_true, decide_eq_true_eq] at hv
  obtain ⟨⟨⟨hm, hg0⟩, hg1⟩, hi⟩ := hv
  rw [led_init_valid_eq okEnv c.mallocOk c.fresh c.me g c.gpio c.mode c.time c.intensity
    hm hg0 hg1 hi hcap]
  obtain ⟨h1, h2, h3⟩ := led_init_hw_ok
    { ledc_config :=
        ⟨g.leds_num, 0, 0, c.intensity * 80, c.gpio,
          (if c.me.mode = CONTINUOUS_MODE then LedcIntrType.disable else LedcIntrType.fadeEnd),
          LED_SPEED_MODE, LED_TIMER⟩,
      mode := c.mode, time := c.time, state := false } g
  exact ⟨h1, h2, by rw [led_init_hw_me], h3⟩

/-- Running valid registrations under the all-ok driver assigns channel
indices `g.leds_num, g.leds_num+1, …` in order, each call succeeds, and
the counter ends at `g.leds_num + cs.length`. -/
theorem run_registrations_ok (cs : List RegCall) : ∀ g : LedGlobals,
    (∀ c ∈ cs, validCall c = true) → g.leds_num + cs.length ≤ LED_MAX_NUM →
    ((run_registrations okEnv cs g).1.map (fun r => r.me.ledc_config.channel) =
        List.range' g.leds_num cs.length) ∧
    (run_registrations okEnv cs g).2.leds_num = g.leds_num + cs.length ∧
    (∀ r ∈ (run_registrations okEnv cs g).1, r.ret = EspErr.ok ∧ r.panicked = false) := by
  induction cs with
  | nil =>
    intro g _ _
    exact ⟨rfl, rfl, fun r hr => absurd hr (List.not_mem_nil r)⟩
  | cons c cs ih =>
    intro g hv hcap
    have hlen : cs.length + 1 = (c :: cs).length := rfl
    obtain ⟨hret, hpan, hch, hln⟩ := led_init_ok_reg c g (hv c (List.mem_cons_self c cs))
      (by simp only [List.length_cons] at hcap; omega)
    obtain ⟨ih1, ih2, ih3⟩ := ih
      (led_init okEnv c.mallocOk c.fresh c.me g c.gpio c.mode c.time c.intensity).g
      (fun c' hc' => hv c' (List.mem_cons_of_mem c hc'))
      (by simp only [List.length_cons] at hcap; omega)
    refine ⟨?_, ?_, ?_⟩
    · simp only [run_registrations, List.map_cons, hch, ih1, hln, List.length_cons,
        List.range'_succ]
    · simp only [run_registrations, ih2, hln, List.length_cons]
      omega
    · intro r hr
      simp only [run_registrations, List.mem_cons] at hr
      rcases hr with h | h
      · rw [h]; exact ⟨hret, hpan⟩
      · exact ih3 r h

/-- Claim C5: with 8 valid registrations from a fresh system under an
all-ok driver, every registration succeeds, the assigned channel indices
are exactly `[0,…,7]` (distinct and all `< 8`), and the 9th registration
call fails with the capacity error `ESP_FAIL`, issuing no driver call and
leaving the instance and globals untouched. -/
theorem led_C5 (cs : List RegCall) (c9 : RegCall)
    (h8 : cs.length = 8) (hv : ∀ c ∈ cs, validCall c = true) :
    ((run_registrations okEnv cs initGlobals).1.map (fun r => r.me.ledc_config.channel) =
        [0, 1, 2, 3, 4, 5, 6, 7]) ∧
    ((run_registrations okEnv cs initGlobals).1.map (fun r => r.me.ledc_config.channel)).Nodup ∧
    (∀ ch ∈ (run_registrations okEnv cs initGlobals).1.map (fun r => r.me.ledc_config.channel),
        ch < 8) ∧
    (∀ r ∈ (run_registrations okEnv cs initGlobals).1, r.ret = EspErr.ok) ∧
    (run_registrations okEnv cs initGlobals).2.leds_num = 8 ∧
    led_init okEnv c9.mallocOk c9.fresh c9.me (run_registrations okEnv cs initGlobals).2
        c9.gpio c9.mode c9.time c9.intensity =
      ⟨EspErr.fail, c9.me, (run_registrations okEnv cs initGlobals).2, [], false⟩ := by
  obtain ⟨h1, h2, h3⟩ := run_registrations_ok cs initGlobals hv (by rw [h8]; decide)
  have hmap : (run_registrations okEnv cs initGlobals).1.map (fun r => r.me.ledc_config.channel) =
      [0, 1, 2, 3, 4, 5, 6, 7] := by
    rw [h1, h8]; decide
  have hnum : (run_registrations okEnv cs initGlobals).2.leds_num = 8 := by
    rw [h2, h8]
    decide
  refine ⟨hmap, by rw [hmap]; decide, ?_, fun r hr => (h3 r hr).1, hnum, ?_⟩
  · intro ch hch
    rw [hmap] at hch
    simp only [List.mem_cons, List.not_mem_nil, or_false] at hch
    omega
  · simp only [led_init]
    rw [if_pos (by rw [hnum]; decide)]

/-- Claim C5, witness: eight copies of the valid registration request
`regCallA`, then a ninth. -/
theorem led_C5_witness :
    ((run_registrations okEnv (List.replicate 8 regCallA) initGlobals).1.map
        (fun r => r.me.ledc_config.channel) = [0, 1, 2, 3, 4, 5, 6, 7]) ∧
    ((run_registrations okEnv (List.replicate 8 regCallA) initGlobals).1.map
        (fun r => r.me.ledc_config.channel)).Nodup ∧
    (∀ ch ∈ (run_registrations okEnv (List.replicate 8 regCallA) initGlobals).1.map
        (fun r => r.me.ledc_config.channel), ch < 8) ∧
    (∀ r ∈ (run_registrations okEnv (List.replicate 8 regCallA) initGlobals).1,
        r.ret = EspErr.ok) ∧
    (run_registrations okEnv (List.replicate 8 regCallA) initGlobals).2.leds_num = 8 ∧
    led_init okEnv regCallA.mallocOk regCallA.fresh regCallA.me
        (run_registrations okEnv (List.replicate 8 regCallA) initGlobals).2
        regCallA.gpio regCallA.mode regCallA.time regCallA.intensity =
      ⟨EspErr.fail, regCallA.me,
        (run_registrations okEnv (List.replicate 8 regCallA) initGlobals).2, [], false⟩ :=
  led_C5 (List.replicate 8 regCallA) regCallA (by decide)
    (fun c hc => by
      rw [List.eq_of_mem_replicate hc]
      decide)

/-- `led_init` never decreases `leds_num`, for any driver behaviour. -/
theorem led_init_leds_mono (env : DriverEnv) (mallocOk : Bool) (fresh : LedcChannelConfig)
    (me : led_t) (g : LedGlobals) (gpio : Int) (mode : Nat) (time : Nat) (intensity : Nat) :
    g.leds_num ≤ (led_init env mallocOk fresh me g gpio mode time intensity).g.leds_num := by
  simp only [led_init]
  split_ifs <;> first | exact Nat.le_refl _ | exact led_init_hw_mono env _ g

/-- Once at least one registration has completed, no later `led_init`
call issues the shared-timer configuration, for any driver behaviour. -/
theorem led_init_timer_off (env : DriverEnv) (mallocOk : Bool) (fresh : LedcChannelConfig)
    (me : led_t) (g : LedGlobals) (gpio : Int) (mode : Nat) (time : Nat) (intensity : Nat)
    (h : g.leds_num ≠ 0) :
    (led_init env mallocOk fresh me g gpio mode time intensity).calls.countP
      (fun c => isTimerConfig c) = 0 := by
  simp only [led_init]
  split_ifs <;> first | rfl | (rw [led_init_hw_timer, if_neg h])

/-- A registration whose arguments fail validation issues no driver call
and leaves the globals untouched, for any driver behaviour (the capacity
rejection included). -/
theorem led_init_invalid (env : DriverEnv) (c : RegCall) (g : LedGlobals)
    (hv : validCall c = false) :
    (led_init env c.mallocOk c.fresh c.me g c.gpio c.mode c.time c.intensity).calls = [] ∧
    (led_init env c.mallocOk c.fresh c.me g c.gpio c.mode c.time c.intensity).g = g := by
  have hv' : ¬ (c.mallocOk = true ∧ GPIO_NUM_0 ≤ c.gpio ∧ c.gpio < GPIO_NUM_MAX ∧
      c.intensity ≤ 100) := by
    intro h
    obtain ⟨h1, h2, h3, h4⟩ := h
    simp [validCall, h1, h2, h3, h4] at hv
  simp only [led_init]
  split_ifs with h1 h2 h3 h4 h5 <;>
    first
      | exact ⟨rfl, rfl⟩
      | (exfalso; exact hv' ⟨by simpa using h2, by omega, by omega, by omega⟩)

/-- Once `leds_num` is positive, a whole run of registrations never
configures the shared timer, for any driver behaviour. -/
theorem timerCalls_pos (env : DriverEnv) (cs : List RegCall) : ∀ g : LedGlobals,
    1 ≤ g.leds_num → timerCalls (run_registrations env cs g).1 = 0 := by
  induction cs with
  | nil => intro g _; rfl
  | cons c cs ih =>
    intro g hg
    have hmono := led_init_leds_mono env c.mallocOk c.fresh c.me g c.gpio c.mode c.time c.intensity
    have h0 := led_init_timer_off env c.mallocOk c.fresh c.me g c.gpio c.mode c.time c.intensity
      (by omega)
    have htail := ih (led_init env c.mallocOk c.fresh c.me g c.gpio c.mode c.time c.intensity).g
      (by omega)
    simp only [run_registrations, timerCalls, List.map_cons, List.sum_cons, h0]
    simpa [timerCalls] using htail

/-- A valid registration starting from `leds_num = 0` configures the
shared timer exactly once (under the all-ok driver). -/
theorem led_init_timer_on (c : RegCall) (g : LedGlobals)
    (hv : validCall c = true) (h0 : g.leds_num = 0) :
    (led_init okEnv c.mallocOk c.fresh c.me g c.gpio c.mode c.time c.intensity).calls.countP
      (fun x => isTimerConfig x) = 1 := by
  simp only [validCall, Bool.and_eq_true, decide_eq_true_eq] at hv
  obtain ⟨⟨⟨hm, hg0⟩, hg1⟩, hi⟩ := hv
  rw [led_init_valid_eq okEnv c.mallocOk c.fresh c.me g c.gpio c.mode c.time c.intensity
    hm hg0 hg1 hi (by rw [h0]; decide)]
  rw [led_init_hw_timer, if_pos h0]

/-- Claim C6, counterexample: if the driver rejects the channel
configuration (which happens *after* the timer-configuration step), the
registration fails without incrementing `leds_num`, and the next
registration configures the shared timer again — two timer-configuration
calls across two registrations, not one. -/
theorem led_C6_counterexample :
    timerCalls (run_registrations chanFailEnv [regCallA, regCallA] initGlobals).1 = 2 ∧
    (run_registrations chanFailEnv [regCallA, regCallA] initGlobals).1.map (fun r => r.ret) =
      [EspErr.fail, EspErr.fail] := by
  exact ⟨by decide, by decide⟩

/-- Claim C6 (amended): under a driver whose calls all succeed, the
shared-timer configuration call occurs exactly once across any sequence
of registrations containing at least one argument-valid request (and not
at all otherwise): it is performed by the first registration that passes
argument validation, and registrations rejected during validation never
touch the timer.  (If a registration fails *after* the timer step — e.g.
the driver rejects the channel configuration — the guard `leds_num` is
not incremented and the timer can be configured again, as the
counterexample shows.) -/
theorem led_C6_amended (cs : List RegCall) :
    timerCalls (run_registrations okEnv cs initGlobals).1 =
      if cs.any validCall then 1 else 0 := by
  induction cs with
  | nil => rfl
  | cons c cs ih =>
    by_cases h : validCall c
    · have h1 := led_init_timer_on c initGlobals h rfl
      have hln := (led_init_ok_reg c initGlobals h (by decide)).2.2.2
      have htail := timerCalls_pos okEnv cs
        (led_init okEnv c.mallocOk c.fresh c.me initGlobals c.gpio c.mode c.time c.intensity).g
        (by rw [hln]; omega)
      simp only [run_registrations, timerCalls, List.map_cons, List.sum_cons, h1, List.any_cons,
        h, Bool.true_or, if_true]
      simpa [timerCalls] using htail
    · have hb : validCall c = false := by
        exact Bool.eq_false_iff.mpr h
      obtain ⟨hcalls, hg⟩ := led_init_invalid okEnv c initGlobals hb
      simp only [run_registrations, timerCalls, List.map_cons, List.sum_cons, hcalls, hg,
        List.any_cons, hb, Bool.false_or, List.countP_nil]
      simpa [timerCalls] using ih

/-- `led_start` never issues the fade-service installation call. -/
theorem led_start_no_install (env : DriverEnv) (me : led_t) :
    (led_start env me).calls.countP (fun c => isInstallCall c) = 0 := by
  simp only [led_start]
  split_ifs <;> simp [isInstallCall]

/-- No call issued by `led_start` is the installation call. -/
theorem led_start_install_false (env : DriverEnv) (me : led_t) :
    ∀ a ∈ (led_start env me).calls, isInstallCall a = false := by
  simp only [led_start]
  split_ifs <;> intro a ha <;> fin_cases ha <;> rfl

/-- With the service already installed, the hardware half of `led_init`
never issues the installation call. -/
theorem led_init_hw_no_install (env : DriverEnv) (me2 : led_t) (g : LedGlobals)
    (h : g.is_installed = true) :
    (led_init_hw env me2 g).calls.countP (fun c => isInstallCall c) = 0 := by
  simp only [led_init_hw]
  split_ifs <;> simp_all [List.countP_append, List.countP_cons, isInstallCall]

/-- With the service already installed, the hardware half of `led_set`
never issues the installation call. -/
theorem led_set_hw_no_install (env : DriverEnv) (me2 : led_t) (g : LedGlobals)
    (h : g.is_installed = true) :
    (led_set_hw env me2 g).calls.countP (fun c => isInstallCall c) = 0 := by
  simp only [led_set_hw]
  split_ifs <;>
    simp_all [List.countP_append, List.countP_cons, isInstallCall] <;>
    (intro a ha; simpa [isInstallCall] using led_start_install_false _ _ a ha)

/-- Under the all-ok driver the hardware half of `led_init` issues the
installation call exactly when the computed interrupt type is `FADE_END`
and the service is not yet installed. -/
theorem led_init_hw_install_okEnv (me2 : led_t) (g : LedGlobals) :
    (led_init_hw okEnv me2 g).calls.countP (fun c => isInstallCall c) =
      if me2.ledc_config.intr_type = LedcIntrType.fadeEnd ∧ g.is_installed = false
        then 1 else 0 := by
  simp only [led_init_hw, okEnv]
  split_ifs <;> simp_all [List.countP_append, List.countP_cons, isInstallCall]

/-- Under the all-ok driver the hardware half of `led_set` issues the
installation call exactly when the computed interrupt type is `FADE_END`
and the service is not yet installed. -/
theorem led_set_hw_install_okEnv (me2 : led_t) (g : LedGlobals) :
    (led_set_hw okEnv me2 g).calls.countP (fun c => isInstallCall c) =
      if me2.ledc_config.intr_type = LedcIntrType.fadeEnd ∧ g.is_installed = false
        then 1 else 0 := by
  simp only [led_set_hw, okEnv]
  split_ifs <;>
    simp_all [List.countP_append, List.countP_cons, isInstallCall] <;>
    (intro a ha; simpa [isInstallCall] using led_start_install_false _ _ a ha)

/-- On a valid argument set (pin in range, intensity at most 100, mode
one of the two enumerators), `led_set` reduces to its hardware half
applied to the overwritten instance. -/
theorem led_set_valid_eq (env : DriverEnv) (me : led_t) (g : LedGlobals) (gpio : Int)
    (mode : Nat) (time : Nat) (intensity : Nat)
    (hg0 : GPIO_NUM_0 ≤ gpio) (hg1 : gpio < GPIO_NUM_MAX) (hi : intensity ≤ 100)
    (hmode : mode = FADE_MODE ∨ mode = CONTINUOUS_MODE) :
    led_set env me g gpio mode time intensity =
      led_set_hw env
        { me with
          ledc_config :=
            { me.ledc_config with
              gpio_num := gpio,
              duty := intensity * 80,
              intr_type :=
                if mode = CONTINUOUS_MODE then LedcIntrType.disable else LedcIntrType.fadeEnd },
          mode := mode, time := time } g := by
  simp only [led_set]
  rw [if_neg (by omega), if_neg (by omega), if_neg (by tauto)]

/-- Claim C7, counterexample: `led_init` decides installation from the
*previous* value of the instance's mode field, not from the mode
argument.  On a struct whose mode field reads `CONTINUOUS_MODE`, a
registration requesting `FADE_MODE` installs nothing (and leaves the
flag clear); conversely, on a struct whose field reads `FADE_MODE`, a
registration requesting `CONTINUOUS_MODE` does install the service. -/
theorem led_C7_counterexample :
    contLed.mode = CONTINUOUS_MODE ∧
    (led_init okEnv true zeroCfg contLed initGlobals 4 FADE_MODE 1000 50).calls.countP
      (fun c => isInstallCall c) = 0 ∧
    (led_init okEnv true zeroCfg contLed initGlobals 4 FADE_MODE 1000 50).g.is_installed = false ∧
    (led_init okEnv true zeroCfg contLed initGlobals 4 FADE_MODE 1000 50).ret = EspErr.ok ∧
    blankLed.mode = FADE_MODE ∧
    (led_init okEnv true zeroCfg blankLed initGlobals 4 CONTINUOUS_MODE 1000 50).calls.countP
      (fun c => isInstallCall c) = 1 := by
  refine ⟨?_, ?_, ?_, ?_, ?_, ?_⟩ <;> decide

/-- Claim C7 (amended): installation is guarded by the global
`is_installed` flag, so it happens at most once process-wide; the trigger
is the computed interrupt type.  In `led_set` that is determined by the
mode argument (install exactly for `FADE_MODE`), but in `led_init` it is
determined by the value the instance's mode field held *before* the call
(install exactly when that prior value differs from `CONTINUOUS_MODE`).
`led_init` tolerates the driver's already-installed response
(`ESP_ERR_INVALID_STATE`): the registration still completes, with the
flag set. -/
theorem led_C7_amended :
    (∀ (env : DriverEnv) (mallocOk : Bool) (fresh : LedcChannelConfig) (me : led_t)
        (g : LedGlobals) (gpio : Int) (mode : Nat) (time : Nat) (intensity : Nat),
      g.is_installed = true →
        (led_init env mallocOk fresh me g gpio mode time intensity).calls.countP
          (fun c => isInstallCall c) = 0 ∧
        (led_set env me g gpio mode time intensity).calls.countP
          (fun c => isInstallCall c) = 0) ∧
    (∀ (fresh : LedcChannelConfig) (me : led_t) (g : LedGlobals) (gpio : Int)
        (mode : Nat) (time : Nat) (intensity : Nat),
      GPIO_NUM_0 ≤ gpio → gpio < GPIO_NUM_MAX → intensity ≤ 100 →
      g.leds_num < LED_MAX_NUM → g.is_installed = false →
        (led_init okEnv true fresh me g gpio mode time intensity).calls.countP
          (fun c => isInstallCall c) = (if me.mode = CONTINUOUS_MODE then 0 else 1)) ∧
    (∀ (me : led_t) (g : LedGlobals) (gpio : Int) (mode : Nat) (time : Nat) (intensity : Nat),
      GPIO_NUM_0 ≤ gpio → gpio < GPIO_NUM_MAX → intensity ≤ 100 →
      (mode = FADE_MODE ∨ mode = CONTINUOUS_MODE) → g.is_installed = false →
        (led_set okEnv me g gpio mode time intensity).calls.countP
          (fun c => isInstallCall c) = (if mode = FADE_MODE then 1 else 0)) ∧
    ((led_init alreadyEnv true zeroCfg blankLed initGlobals 4 FADE_MODE 500 25).ret =
        EspErr.invalidState ∧
      (led_init alreadyEnv true zeroCfg blankLed initGlobals 4 FADE_MODE 500 25).g.leds_num = 1 ∧
      (led_init alreadyEnv true zeroCfg blankLed initGlobals 4 FADE_MODE 500 25).g.is_installed =
        true) := by
  refine ⟨?_, ?_, ?_, by decide⟩
  · intro env mOk fresh me g gpio mode time i hinst
    constructor
    · simp only [led_init]
      split_ifs <;> first | rfl | exact led_init_hw_no_install env _ g hinst
    · simp only [led_set]
      split_ifs <;> first | rfl | exact led_set_hw_no_install env _ g hinst
  · intro fresh me g gpio mode time i hg0 hg1 hi hcap hinst
    rw [led_init_valid_eq okEnv true fresh me g gpio mode time i rfl hg0 hg1 hi hcap,
      led_init_hw_install_okEnv]
    by_cases hmode : me.mode = CONTINUOUS_MODE
    · simp [hmode, hinst]
    · simp [hmode, hinst]
  · intro me g gpio mode time i hg0 hg1 hi hmode hinst
    rw [led_set_valid_eq okEnv me g gpio mode time i hg0 hg1 hi hmode,
      led_set_hw_install_okEnv]
    rcases hmode with h | h <;> subst h <;> simp [FADE_MODE, CONTINUOUS_MODE, hinst]

/-- Claim C7, witness: the amended theorem instantiated — the guard with
the flag already set, `led_init` triggered by the prior mode field, and
`led_set` triggered by the mode argument. -/
theorem led_C7_witness :
    ((led_init okEnv true zeroCfg blankLed ⟨true, 1⟩ 4 FADE_MODE 500 25).calls.countP
        (fun c => isInstallCall c) = 0 ∧
      (led_set okEnv blankLed ⟨true, 1⟩ 4 FADE_MODE 500 25).calls.countP
        (fun c => isInstallCall c) = 0) ∧
    (led_init okEnv true zeroCfg contLed initGlobals 4 FADE_MODE 1000 50).calls.countP
      (fun c => isInstallCall c) = (if contLed.mode = CONTINUOUS_MODE then 0 else 1) ∧
    (led_set okEnv sampleMe initGlobals 4 FADE_MODE 500 25).calls.countP
      (fun c => isInstallCall c) = (if FADE_MODE = FADE_MODE then 1 else 0) :=
  ⟨led_C7_amended.1 okEnv true zeroCfg blankLed ⟨true, 1⟩ 4 FADE_MODE 500 25 rfl,
    led_C7_amended.2.1 zeroCfg contLed initGlobals 4 FADE_MODE 1000 50
      (by decide) (by decide) (by decide) (by decide) rfl,
    led_C7_amended.2.2.1 sampleMe initGlobals 4 FADE_MODE 500 25
      (by decide) (by decide) (by decide) (Or.inl rfl) rfl⟩
